import Mathlib

/-!
Verification of the product-assistant orchestration core.

Text is modelled as `List Char` (Python strings are sequences of code
points), conversation histories as lists of messages, dictionaries as
association lists, and the LLM / code-analysis / database collaborators as
explicit oracles.  Each definition is a direct translation of the Python
function named in its doc comment.
-/

/-- Python strings modelled as lists of characters. -/
abbrev Str := List Char

/-- `str.strip()`: remove leading and trailing whitespace. -/
def pyStrip (s : Str) : Str :=
  ((s.dropWhile Char.isWhitespace).reverse.dropWhile Char.isWhitespace).reverse

/-- `str.lower()`: character-wise lower-casing. -/
def pyLower (s : Str) : Str := s.map Char.toLower

/-- Python truthiness of an optional string (`None` and `""` are falsy). -/
def truthyS : Option Str → Bool
  | none => false
  | some s => s ≠ []

/-- Python truthiness of an optional integer (`None` and `0` are falsy). -/
def truthyN : Option Nat → Bool
  | none => false
  | some n => n ≠ 0

/-- One entry of a conversation history: a JSON object
`{"role": ..., "content": ...}` as written by `chat_node`. -/
structure Message where
  role : Str
  content : Str
deriving DecidableEq, Repr

/-- `app/config.py` line 48: `MAX_CONVERSATION_HISTORY_MESSAGES`
(default value of the environment lookup). -/
def MAX_CONVERSATION_HISTORY_MESSAGES : Nat := 20

/-- `app/langgraph/unified_orchestrator.py` lines 113-121: after loading,
`if len(h) > MAX: h = h[-MAX:]` — keep only the most recent entries. -/
def boundHistoryOnLoad (h : List Message) : List Message :=
  if h.length > MAX_CONVERSATION_HISTORY_MESSAGES then
    h.drop (h.length - MAX_CONVERSATION_HISTORY_MESSAGES)
  else h

/-- `app/langgraph/unified_orchestrator.py` lines 176-184: before saving,
`if len(h) > MAX: h = h[-MAX:]` — same transformation as on load. -/
def boundHistoryOnSave (h : List Message) : List Message :=
  if h.length > MAX_CONVERSATION_HISTORY_MESSAGES then
    h.drop (h.length - MAX_CONVERSATION_HISTORY_MESSAGES)
  else h

/-- `app/langgraph/nodes/feasibility_analysis_node.py` line 36 and
`feature_analysis_node.py` line 35: the marker appended on truncation. -/
def TRUNCATION_MARKER : Str :=
  "\n\n[Truncated: analysis exceeded 6000 characters]".data

/-- `feasibility_analysis_node.py` lines 35-36 / `feature_analysis_node.py`
lines 34-35: `if len(s) > 6000: s = s[:6000] + marker`. -/
def truncateAnalysisSnippet (s : Str) : Str :=
  if s.length > 6000 then s.take 6000 ++ TRUNCATION_MARKER else s

/-- `feasibility_analysis_node.py` lines 34-38 / `feature_analysis_node.py`
lines 33-37: strip the cached analysis, truncate it, default to "N/A". -/
def prepareAnalysisSnippet (codex_analysis : Str) : Str :=
  let s := truncateAnalysisSnippet (pyStrip codex_analysis)
  if s = [] then "N/A".data else s

/-- C1: the bounding transformation applied on load and on save keeps, for
histories longer than 20 entries, exactly the last 20 entries in their
original relative order (a length-20 suffix), leaves shorter histories
unchanged, is idempotent, and is the same transformation at both sites. -/
theorem history_bounding_bounded_suffix_idempotent (h : List Message) :
    (20 < h.length →
      boundHistoryOnLoad h = h.drop (h.length - 20) ∧
      (boundHistoryOnLoad h).length = 20 ∧
      boundHistoryOnLoad h <:+ h) ∧
    (h.length ≤ 20 → boundHistoryOnLoad h = h) ∧
    boundHistoryOnLoad (boundHistoryOnLoad h) = boundHistoryOnLoad h ∧
    boundHistoryOnSave h = boundHistoryOnLoad h := by
  unfold boundHistoryOnLoad boundHistoryOnSave MAX_CONVERSATION_HISTORY_MESSAGES
  refine ⟨fun hgt => ?_, fun hle => ?_, ?_, ?_⟩
  · rw [if_pos (by omega)]
    refine ⟨rfl, ?_, List.drop_suffix _ _⟩
    rw [List.length_drop]
    omega
  · rw [if_neg (by omega)]
  · by_cases hgt : h.length > 20
    · rw [if_pos hgt, if_neg]
      rw [List.length_drop]
      omega
    · rw [if_neg hgt, if_neg hgt]
  · rfl

/-- C1 witness: a concrete 25-entry history is bounded to its last 20
entries. -/
theorem history_bounding_witness :
    boundHistoryOnLoad (List.replicate 25 ⟨"user".data, "hi".data⟩) =
      (List.replicate 25 (⟨"user".data, "hi".data⟩ : Message)).drop 5 ∧
    (boundHistoryOnLoad (List.replicate 25 ⟨"user".data, "hi".data⟩)).length = 20 := by
  have h := (history_bounding_bounded_suffix_idempotent
    (List.replicate 25 ⟨"user".data, "hi".data⟩)).1 (by simp)
  refine ⟨?_, h.2.1⟩
  have := h.1
  simpa using this

/-- C3 counterexample: for the 6001-character analysis text `aaa…a`, the
truncated form has length `6000 + |marker|`, not `6001 + |marker|` as the
claim states (nor `6001` plus the length of the marker without its leading
blank line). -/
theorem truncation_length_counterexample :
    ¬ ((truncateAnalysisSnippet (List.replicate 6001 'a')).length
        = 6001 + TRUNCATION_MARKER.length) ∧
    ¬ ((truncateAnalysisSnippet (List.replicate 6001 'a')).length
        = 6001 + (TRUNCATION_MARKER.drop 2).length) := by
  have hlen : (List.replicate 6001 'a' : Str).length = 6001 :=
    List.length_replicate 6001 'a'
  have hT : (truncateAnalysisSnippet (List.replicate 6001 'a')).length
      = 6000 + TRUNCATION_MARKER.length := by
    unfold truncateAnalysisSnippet
    rw [if_pos (by omega)]
    rw [List.length_append, List.length_take, hlen]
    omega
  have hM : TRUNCATION_MARKER.length = 48 := by decide
  have hM2 : (TRUNCATION_MARKER.drop 2).length = 46 := by decide
  constructor <;> omega

/-- C3 amended: for analysis text longer than 6000 characters the truncated
form has length exactly `6000 + |marker|` and ends with the truncation
marker; for text of length at most 6000 truncation is the identity. -/
theorem truncation_spec (s : Str) :
    (6000 < s.length →
      (truncateAnalysisSnippet s).length = 6000 + TRUNCATION_MARKER.length ∧
      TRUNCATION_MARKER <:+ truncateAnalysisSnippet s ∧
      truncateAnalysisSnippet s = s.take 6000 ++ TRUNCATION_MARKER) ∧
    (s.length ≤ 6000 → truncateAnalysisSnippet s = s) := by
  unfold truncateAnalysisSnippet
  constructor
  · intro hgt
    rw [if_pos (by omega)]
    refine ⟨?_, List.suffix_append _ _, rfl⟩
    rw [List.length_append, List.length_take]
    omega
  · intro hle
    rw [if_neg (by omega)]

/-- C3 witness: the amended claim evaluated on the concrete 6001-character
text. -/
theorem truncation_spec_witness :
    (truncateAnalysisSnippet (List.replicate 6001 'a')).length
      = 6000 + TRUNCATION_MARKER.length ∧
    TRUNCATION_MARKER <:+ truncateAnalysisSnippet (List.replicate 6001 'a') := by
  have h := (truncation_spec (List.replicate 6001 'a')).1
    (by have := List.length_replicate 6001 'a'; omega)
  exact ⟨h.1, h.2.1⟩

/-- Python `t.split(sep, 1)` restricted to a found separator: returns the
part before and the part after the first occurrence of `sep` in `t`, or
`none` when `sep` does not occur.  Only ever invoked with `sep ≠ []`
(Python raises on an empty separator). -/
def splitOnce (sep : Str) : Str → Option (Str × Str)
  | [] => none
  | c :: cs =>
    if sep <+: (c :: cs) then some ([], (c :: cs).drop sep.length)
    else (splitOnce sep cs).map (fun p => (c :: p.1, p.2))

/-- The `"##"` delimiter at which section extraction stops. -/
def hashHash : Str := "##".data

/-- `feasibility_analysis_node.py` lines 129-132 (`_section`) and
`feature_discovery_service.py` lines 429-437 (`_extract_section`), which
implement the same algorithm:
`if heading not in text: return ""` else
`text.split(heading, 1)[1].split("##", 1)[0].strip()`. -/
def sectionOf (text heading : Str) : Str :=
  match splitOnce heading text with
  | none => []
  | some (_, rest) =>
    match splitOnce hashHash rest with
    | none => pyStrip rest
    | some (before, _) => pyStrip before

theorem splitOnce_isSome_iff (sep : Str) (hsep : sep ≠ []) (t : Str) :
    (splitOnce sep t).isSome ↔ sep <:+: t := by
  induction t with
  | nil =>
    simp [splitOnce, List.infix_nil, hsep]
  | cons c cs ih =>
    by_cases hp : sep <+: (c :: cs)
    · simp [splitOnce, hp, hp.isInfix]
    · simp only [splitOnce, if_neg hp, Option.isSome_map']
      rw [ih, List.infix_cons_iff]
      simp [hp]

theorem splitOnce_eq_none_iff (sep : Str) (hsep : sep ≠ []) (t : Str) :
    splitOnce sep t = none ↔ ¬ sep <:+: t := by
  rw [← splitOnce_isSome_iff sep hsep t, Option.not_isSome_iff_eq_none]

theorem splitOnce_first_occurrence (sep : Str) (hsep : sep ≠ []) :
    ∀ pre rest : Str,
      (∀ i, i < pre.length → ¬ sep <+: (pre ++ sep ++ rest).drop i) →
      splitOnce sep (pre ++ sep ++ rest) = some (pre, rest) := by
  intro pre
  induction pre with
  | nil =>
    intro rest _
    obtain ⟨a, sep', rfl⟩ : ∃ a sep', sep = a :: sep' := by
      cases sep with
      | nil => exact absurd rfl hsep
      | cons a sep' => exact ⟨a, sep', rfl⟩
    rw [List.nil_append, List.cons_append]
    rw [show splitOnce (a :: sep') (a :: (sep' ++ rest)) =
      if (a :: sep') <+: (a :: (sep' ++ rest)) then
        some ([], (a :: (sep' ++ rest)).drop (a :: sep').length)
      else (splitOnce (a :: sep') (sep' ++ rest)).map (fun p => (a :: p.1, p.2))
      from rfl]
    rw [if_pos (by rw [← List.cons_append]; exact List.prefix_append _ _)]
    rw [← List.cons_append, List.drop_left]
  | cons c pre' ih =>
    intro rest hfirst
    have h0 : ¬ sep <+: ((c :: pre') ++ sep ++ rest) := by
      have := hfirst 0 (by simp)
      simpa using this
    rw [List.cons_append, List.cons_append]
    rw [show splitOnce sep (c :: (pre' ++ sep ++ rest)) =
      if sep <+: (c :: (pre' ++ sep ++ rest)) then
        some ([], (c :: (pre' ++ sep ++ rest)).drop sep.length)
      else (splitOnce sep (pre' ++ sep ++ rest)).map (fun p => (c :: p.1, p.2))
      from rfl]
    rw [if_neg (by simpa using h0)]
    rw [ih rest ?_]
    · rfl
    · intro i hi
      have := hfirst (i + 1) (by simpa using Nat.succ_lt_succ hi)
      simpa using this

/-- C4: section extraction returns the trimmed content strictly between the
first occurrence of the heading and the next `"##"` heading marker; with no
further marker it returns everything after the heading, trimmed; with the
heading absent it returns the empty string (and, being a total function,
never raises). -/
theorem section_extraction_spec (text heading : Str) (hne : heading ≠ []) :
    (¬ heading <:+: text → sectionOf text heading = []) ∧
    (∀ pre mid post,
      text = pre ++ heading ++ (mid ++ hashHash ++ post) →
      (∀ i, i < pre.length → ¬ heading <+: text.drop i) →
      (∀ j, j < mid.length → ¬ hashHash <+: (mid ++ hashHash ++ post).drop j) →
      sectionOf text heading = pyStrip mid) ∧
    (∀ pre mid,
      text = pre ++ heading ++ mid →
      (∀ i, i < pre.length → ¬ heading <+: text.drop i) →
      ¬ hashHash <:+: mid →
      sectionOf text heading = pyStrip mid) := by
  have hhh : hashHash ≠ [] := by decide
  refine ⟨fun habs => ?_, fun pre mid post htext hfirst hmid => ?_,
    fun pre mid htext hfirst hmid => ?_⟩
  · unfold sectionOf
    rw [(splitOnce_eq_none_iff heading hne text).mpr habs]
  · subst htext
    have e1 := splitOnce_first_occurrence heading hne pre (mid ++ hashHash ++ post) hfirst
    have e2 := splitOnce_first_occurrence hashHash hhh mid post hmid
    simp only [sectionOf, e1, e2]
  · subst htext
    have e1 := splitOnce_first_occurrence heading hne pre mid hfirst
    have e2 := (splitOnce_eq_none_iff hashHash hhh mid).mpr hmid
    simp only [sectionOf, e1, e2]

/-- C4 witness: the three cases evaluated on concrete texts: a heading
followed by content and a further `"##"` heading, a heading with no further
heading, and an absent heading. -/
theorem section_extraction_witness :
    sectionOf "intro\n## X\ncontent here\n## Y\nrest".data "## X".data
      = "content here".data ∧
    sectionOf "## X\n tail stuff \n".data "## X".data = "tail stuff".data ∧
    sectionOf "no headings at all".data "## X".data = [] := by
  refine ⟨?_, ?_, ?_⟩
  · have h := (section_extraction_spec "intro\n## X\ncontent here\n## Y\nrest".data
      "## X".data (by decide)).2.1
      "intro\n".data "\ncontent here\n".data " Y\nrest".data
      (by decide) (by decide) (by decide)
    exact h.trans (by decide)
  · have h := (section_extraction_spec "## X\n tail stuff \n".data
      "## X".data (by decide)).2.2
      [] "\n tail stuff \n".data
      (by decide) (by decide) (by decide)
    exact h.trans (by decide)
  · exact (section_extraction_spec "no headings at all".data "## X".data
      (by decide)).1 (by decide)

/-- `feasibility_analysis_node.py` lines 125 and 144-152: the feasibility
rating defaults to `"Unknown"`; when the assessment section is non-empty it
is lower-cased and matched against `"high"`, then `"medium"`, then
`"low"`. -/
def classifyFeasibilityRating (feasibility_section : Str) : Str :=
  if feasibility_section ≠ [] then
    let lower_section := pyLower feasibility_section
    if "high".data <:+: lower_section then "High".data
    else if "medium".data <:+: lower_section then "Medium".data
    else if "low".data <:+: lower_section then "Low".data
    else "Unknown".data
  else "Unknown".data

/-- C8: the rating classifier lower-cases the assessment section and returns
the first of "high", "medium", "low" (in that priority order) occurring as a
substring; when none of the three occurs the rating is "Unknown". -/
theorem feasibility_rating_spec (s : Str) :
    ("high".data <:+: pyLower s → classifyFeasibilityRating s = "High".data) ∧
    (¬ "high".data <:+: pyLower s → "medium".data <:+: pyLower s →
      classifyFeasibilityRating s = "Medium".data) ∧
    (¬ "high".data <:+: pyLower s → ¬ "medium".data <:+: pyLower s →
      "low".data <:+: pyLower s → classifyFeasibilityRating s = "Low".data) ∧
    (¬ "high".data <:+: pyLower s → ¬ "medium".data <:+: pyLower s →
      ¬ "low".data <:+: pyLower s →
      classifyFeasibilityRating s = "Unknown".data) := by
  have hne : ∀ pat : Str, pat ≠ [] → pat <:+: pyLower s → s ≠ [] := by
    intro pat hpat hinf hs
    subst hs
    exact hpat (List.eq_nil_of_infix_nil hinf)
  refine ⟨fun h1 => ?_, fun h1 h2 => ?_, fun h1 h2 h3 => ?_, fun h1 h2 h3 => ?_⟩
  · unfold classifyFeasibilityRating
    rw [if_pos (hne _ (by decide) h1), if_pos h1]
  · unfold classifyFeasibilityRating
    rw [if_pos (hne _ (by decide) h2), if_neg h1, if_pos h2]
  · unfold classifyFeasibilityRating
    rw [if_pos (hne _ (by decide) h3), if_neg h1, if_neg h2, if_pos h3]
  · unfold classifyFeasibilityRating
    by_cases hs : s = []
    · rw [if_neg (by simpa using hs)]
    · rw [if_pos hs, if_neg h1, if_neg h2, if_neg h3]

/-- C8 witness: the spec's concrete examples: a section rating "High" with
the word "low" also present yields `High`; a section with none of the three
keywords yields `Unknown`. -/
theorem feasibility_rating_witness :
    classifyFeasibilityRating "Feasibility: High — likely low risk".data
      = "High".data ∧
    classifyFeasibilityRating "no rating given here".data = "Unknown".data := by
  constructor
  · exact (feasibility_rating_spec "Feasibility: High — likely low risk".data).1
      (by decide)
  · exact (feasibility_rating_spec "no rating given here".data).2.2.2
      (by decide) (by decide) (by decide)

/-- `app/langgraph/unified_state.py`: the `UnifiedAgentState` TypedDict
(fields used by the router and chat nodes; `codebase_structure`,
`recipe_id` and the analysis-result fields are carried through `**state`
unchanged and are not read by those nodes). -/
structure UState where
  request_type : Str
  chat_id : Option Nat
  project_id : Str
  repo_path : Option Str
  message : Option Str
  conversation_history : List Message
  analysis_context : Option Str
  query : Option Str
  requirement : Option Str
  context : Option Str
  codex_analysis : Str
  response : Option Str
  messages : List Str
deriving DecidableEq, Repr

/-- The LLM invocation port `generate_content(prompt, system_prompt)`:
returns the response text, or an exception (its message) when both the
primary and the fallback model fail. -/
abbrev LLM := Str → Str → Except Str Str

/-- `router_node.py` lines 70-88: the conservative routing prompt used
inside an existing chat session that already has analysis context. -/
def conservativeRouterPrompt (message : Str) : Str :=
  ("\nYou are a routing agent. The user is in a chat session asking a follow-up question.\n\nIMPORTANT: Default to \"chat\" unless they EXPLICITLY ask for a NEW analysis.\n\nRoute to analysis ONLY if they say things like:\n- \"Can you analyze...\" or \"Analyze the feasibility of...\"\n- \"How does [specific feature] work?\" (asking about a specific feature in codebase)\n- \"What is the feasibility of adding [new thing]?\"\n\nRoute to \"chat\" for:\n- Questions about estimates, risks, approach, questions (follow-ups)\n- \"Does this...\", \"Are these...\", \"What about...\", \"Can you explain...\"\n- Any clarification or follow-up question\n\nUser message: ").data
  ++ message
  ++ ("\n\nRespond with ONLY one word: \"chat\", \"feasibility_analysis\", or \"feature_analysis\"\n").data

/-- `router_node.py` lines 91-102: the aggressive routing prompt used for a
new request without chat context. -/
def aggressiveRouterPrompt (message : Str) : Str :=
  ("\nYou are a routing agent for a product assistant system. Analyze the user's request and determine the appropriate route.\n\nAvailable routes:\n1. \"chat\" - For general conversation or questions\n2. \"feasibility_analysis\" - For analyzing the feasibility of a NEW requirement (keywords: \"analyze feasibility\", \"can we add\", \"is it possible to\", \"estimate\", \"new requirement\")\n3. \"feature_analysis\" - For analyzing an EXISTING feature in the codebase (keywords: \"how does\", \"explain the feature\", \"what does this feature do\", \"analyze the feature\")\n\nUser request: ").data
  ++ message
  ++ ("\n\nRespond with ONLY one word: \"chat\", \"feasibility_analysis\", or \"feature_analysis\"\n").data

/-- `router_node.py` line 106: the routing system prompt. -/
def routerSystemPrompt : Str :=
  ("You are a routing agent. Analyze the user's intent carefully. If they want NEW analysis, route to analysis. If they're asking follow-ups, route to chat. Respond with only one word: chat, feasibility_analysis, or feature_analysis").data

/-- `app/langgraph/nodes/router_node.py` lines 21-163 (`router_node`):
explicit `query` ⇒ feature_analysis; explicit `requirement` ⇒
feasibility_analysis; no message at all ⇒ chat; otherwise ask the LLM and
normalize its one-word answer by substring containment; any exception
during classification defaults to chat. -/
def router_node (llm : LLM) (state : UState) : UState :=
  if truthyS state.query then
    { state with request_type := "feature_analysis".data,
                 messages := state.messages ++ [("Routing to feature analysis agent").data] }
  else if truthyS state.requirement then
    { state with request_type := "feasibility_analysis".data,
                 messages := state.messages ++ [("Routing to feasibility analysis agent").data] }
  else
    let message : Str :=
      if truthyS state.message then state.message.getD []
      else if truthyS state.query then state.query.getD []
      else state.requirement.getD []
    if message = [] then
      if truthyN state.chat_id then
        { state with request_type := "chat".data,
                     messages := state.messages ++ [("No message provided, routing to chat").data] }
      else
        { state with request_type := "chat".data,
                     messages := state.messages ++ [("No clear intent, routing to chat").data] }
    else
      let prompt :=
        if truthyN state.chat_id && truthyS state.analysis_context then
          conservativeRouterPrompt message
        else
          aggressiveRouterPrompt message
      match llm prompt routerSystemPrompt with
      | .error e =>
        { state with request_type := "chat".data,
                     messages := state.messages ++ [("Router error, defaulting to chat: ").data ++ e] }
      | .ok decision =>
        let route_decision := pyLower (pyStrip decision)
        if ("feasibility").data <:+: route_decision then
          if ¬ truthyS state.requirement ∧ message ≠ [] then
            { state with request_type := "feasibility_analysis".data,
                         requirement := some message,
                         messages := state.messages ++ [("Router determined: feasibility_analysis").data] }
          else
            { state with request_type := "feasibility_analysis".data,
                         messages := state.messages ++ [("Router determined: feasibility_analysis").data] }
        else if ("feature").data <:+: route_decision ∧ ("analysis").data <:+: route_decision then
          if ¬ truthyS state.query ∧ message ≠ [] then
            { state with request_type := "feature_analysis".data,
                         query := some message,
                         messages := state.messages ++ [("Router determined: feature_analysis").data] }
          else
            { state with request_type := "feature_analysis".data,
                         messages := state.messages ++ [("Router determined: feature_analysis").data] }
        else
          { state with request_type := "chat".data,
                       messages := state.messages ++ [("Router determined: chat").data] }

/-- C2: with the explicit query field set (non-empty) and the requirement
field unset, the router returns the input state with request kind
feature_analysis (plus a trace entry), independently of the message content
and of the LLM classifier, which is never consulted (the result is the same
for every classifier oracle). -/
theorem router_explicit_query_spec (llm llm' : LLM) (state : UState)
    (hq : truthyS state.query = true) (_hr : state.requirement = none) :
    (router_node llm state).request_type = "feature_analysis".data ∧
    router_node llm state =
      { state with request_type := "feature_analysis".data,
                   messages := state.messages ++ [("Routing to feature analysis agent").data] } ∧
    router_node llm state = router_node llm' state := by
  unfold router_node
  rw [if_pos hq, if_pos hq]
  exact ⟨rfl, rfl, rfl⟩

/-- C2 witness: a concrete state whose free-text message sounds like a
feasibility request but whose explicit query is set routes to
feature_analysis under two different classifier oracles. -/
theorem router_explicit_query_witness :
    (router_node (fun _ _ => .ok ("feasibility_analysis").data)
      { request_type := "chat".data, chat_id := none,
        project_id := "p1".data, repo_path := none,
        message := some ("is it feasible to add dark mode?").data,
        conversation_history := [], analysis_context := none,
        query := some ("billing feature").data, requirement := none,
        context := none, codex_analysis := [], response := none,
        messages := [] }).request_type = "feature_analysis".data ∧
    router_node (fun _ _ => .ok ("feasibility_analysis").data)
      { request_type := "chat".data, chat_id := none,
        project_id := "p1".data, repo_path := none,
        message := some ("is it feasible to add dark mode?").data,
        conversation_history := [], analysis_context := none,
        query := some ("billing feature").data, requirement := none,
        context := none, codex_analysis := [], response := none,
        messages := [] }
    = router_node (fun _ _ => .error ("llm down").data)
      { request_type := "chat".data, chat_id := none,
        project_id := "p1".data, repo_path := none,
        message := some ("is it feasible to add dark mode?").data,
        conversation_history := [], analysis_context := none,
        query := some ("billing feature").data, requirement := none,
        context := none, codex_analysis := [], response := none,
        messages := [] } := by
  have h := router_explicit_query_spec
    (fun _ _ => .ok ("feasibility_analysis").data)
    (fun _ _ => .error ("llm down").data)
    { request_type := "chat".data, chat_id := none,
      project_id := "p1".data, repo_path := none,
      message := some ("is it feasible to add dark mode?").data,
      conversation_history := [], analysis_context := none,
      query := some ("billing feature").data, requirement := none,
      context := none, codex_analysis := [], response := none,
      messages := [] } (by decide) rfl
  exact ⟨h.1, h.2.2⟩

/-- `chat_node.py` lines 35-37: the chat persona system prompt. -/
def chatSystemPrompt : Str :=
  ("You are a helpful product strategy advisor helping a product manager understand their codebase and features. \nWrite in business-friendly language. Focus on product impact, user experience, and business considerations. \nAvoid technical jargon, code references, or file names. Be conversational and helpful.").data

/-- `chat_node.py` lines 39-49: the conversational prompt: prior analysis
context (if any), then the role-labelled history, then the new message.
(`state.get("message", "")` is modelled by the `Option.getD` default.) -/
def chatPrompt (state : UState) : Str :=
  let message := state.message.getD []
  (if truthyS state.analysis_context then
    ("Previous Analysis Context:\n").data ++ state.analysis_context.getD [] ++ ("\n\n").data
  else []) ++
  (if state.conversation_history ≠ [] then
    ("Conversation History:\n").data ++
      state.conversation_history.foldl (fun acc msg =>
        acc ++ (if msg.role = ("user").data then ("Product Manager").data
                else ("Assistant").data)
            ++ (": ").data ++ msg.content ++ ("\n\n").data) []
  else []) ++
  ("Product Manager: ").data ++ message ++ ("\n\nAssistant:").data

/-- `app/langgraph/nodes/chat_node.py` lines 22-77 (`chat_node`): build the
conversational prompt, invoke the LLM, append the user/assistant pair to
the history; on exception return the error string as the response without
touching the history. -/
def chat_node (llm : LLM) (state : UState) : UState :=
  let message := state.message.getD []
  match llm (chatPrompt state) chatSystemPrompt with
  | .ok response_text =>
    { state with
        response := some response_text,
        conversation_history := state.conversation_history ++
          [⟨("user").data, message⟩, ⟨("assistant").data, response_text⟩],
        messages := state.messages ++ [("Chat response generated").data] }
  | .error e =>
    { state with
        response := some (("Chat agent failed: ").data ++ e),
        messages := state.messages ++ [("Chat agent failed: ").data ++ e] }

/-- C10: when the LLM call inside the Chat stage raises, the returned
state's conversation history is exactly the input history (neither the user
message nor an error reply is appended), while the response field carries
the error message and a trace entry records it. -/
theorem chat_node_error_preserves_history (llm : LLM) (state : UState) (e : Str)
    (herr : llm (chatPrompt state) chatSystemPrompt = .error e) :
    (chat_node llm state).conversation_history = state.conversation_history ∧
    (chat_node llm state).response = some (("Chat agent failed: ").data ++ e) ∧
    (chat_node llm state).messages
      = state.messages ++ [("Chat agent failed: ").data ++ e] := by
  unfold chat_node
  rw [herr]
  exact ⟨rfl, rfl, rfl⟩

/-- C10 witness: a concrete chat turn whose LLM call fails leaves the
two-entry history untouched and reports the error as the response. -/
theorem chat_node_error_witness :
    (chat_node (fun _ _ => .error ("boom").data)
      { request_type := ("chat").data, chat_id := some 7,
        project_id := ("p1").data, repo_path := none,
        message := some ("what about edge cases?").data,
        conversation_history :=
          [⟨("user").data, ("hi").data⟩, ⟨("assistant").data, ("hello").data⟩],
        analysis_context := some ("prior analysis").data,
        query := none, requirement := none, context := none,
        codex_analysis := [], response := none,
        messages := [] }).conversation_history
      = [⟨("user").data, ("hi").data⟩, ⟨("assistant").data, ("hello").data⟩] ∧
    (chat_node (fun _ _ => .error ("boom").data)
      { request_type := ("chat").data, chat_id := some 7,
        project_id := ("p1").data, repo_path := none,
        message := some ("what about edge cases?").data,
        conversation_history :=
          [⟨("user").data, ("hi").data⟩, ⟨("assistant").data, ("hello").data⟩],
        analysis_context := some ("prior analysis").data,
        query := none, requirement := none, context := none,
        codex_analysis := [], response := none,
        messages := [] }).response
      = some ("Chat agent failed: boom").data := by
  have h := chat_node_error_preserves_history (fun _ _ => .error ("boom").data)
    { request_type := ("chat").data, chat_id := some 7,
      project_id := ("p1").data, repo_path := none,
      message := some ("what about edge cases?").data,
      conversation_history :=
        [⟨("user").data, ("hi").data⟩, ⟨("assistant").data, ("hello").data⟩],
      analysis_context := some ("prior analysis").data,
      query := none, requirement := none, context := none,
      codex_analysis := [], response := none,
      messages := [] } ("boom").data rfl
  exact ⟨h.1, h.2.1.trans (by decide)⟩

/-- Python `s.split(c)` on a single-character separator: all parts, empty
parts preserved. -/
def splitOnChar (c : Char) (s : Str) : List Str :=
  s.foldr (fun a acc =>
    match acc with
    | [] => [[a]]
    | h :: t => if a = c then [] :: (h :: t) else (a :: h) :: t) [[]]

/-- Python `s.replace(old, new)` (left-to-right, non-overlapping), fuelled
by the length of `s`.  Only invoked with `old ≠ []`. -/
def pyReplaceAux : Nat → Str → Str → Str → Str
  | 0, _, _, s => s
  | n + 1, pat, rep, s =>
    match splitOnce pat s with
    | none => s
    | some (before, after) => before ++ rep ++ pyReplaceAux n pat rep after

/-- Python `s.replace(old, new)`. -/
def pyReplaceAll (pat rep s : Str) : Str := pyReplaceAux (s.length + 1) pat rep s

/-- `str(x)` of an optional integer: `None` renders as `"None"`. -/
def pyStrOfOptNat : Option Nat → Str
  | none => ("None").data
  | some n => (toString n).data

/-- A Python dict value: a string or a boolean. -/
inductive BagVal
  | s (v : Str)
  | b (v : Bool)
deriving DecidableEq, Repr

/-- A Python dict modelled as an association list in insertion order. -/
abbrev Bag := List (Str × BagVal)

/-- `app/langgraph/state.py`: `FeasibilityAnalysisState` (fields read by the
feasibility node). -/
structure FeasState where
  project_id : Str
  requirement : Str
  context : Option Str
  codex_analysis : Option Str
  messages : List Str
deriving DecidableEq, Repr

/-- The structured result returned by the feasibility node. -/
structure FeasResult where
  high_level_design : Str
  risks : List Str
  open_questions : List Str
  technical_feasibility : Str
  rough_estimate : Bag
  task_breakdown : Bag
  messages : List Str
deriving DecidableEq, Repr

/-- `app/langgraph/state.py`: `FeatureAnalysisState` (fields read by the
feature node). -/
structure FeatState where
  project_id : Str
  recipe_id : Option Nat
  query : Str
  codex_analysis : Option Str
  messages : List Str
deriving DecidableEq, Repr

/-- The structured result returned by the feature node. -/
structure FeatResult where
  high_level_design : Str
  feature_details : Str
  messages : List Str
deriving DecidableEq, Repr

/-- `feasibility_analysis_node.py` lines 40-110: the feasibility analysis
prompt with the requirement, context and (truncated) analysis spliced in. -/
def feasibilityNodePrompt (requirement : Str) (context : Option Str)
    (analysis_snippet : Str) : Str :=
  ("\nYou are a product strategy advisor helping a product manager understand the feasibility of a new requirement.\n\nTask:\nGiven the codebase analysis and new requirement, produce a business-friendly feasibility assessment that includes:\n1. High-level approach (in business terms, not technical implementation)\n2. Feasibility assessment (High/Medium/Low)\n3. Business risks and challenges\n4. Open questions that need product decisions\n5. Rough time and effort estimates\n\nRules:\n- Write for a product manager, NOT for engineers\n- Do NOT mention specific files, code, or technical implementation details\n- Focus on business impact, user experience, and product considerations\n- Use plain language - avoid technical jargon\n- If details are missing, call them out as assumptions or unknowns\n- Use clear headings and bullet points\n- Explain what the feature will do from a user/product perspective, not how it will be built\n\nNew Requirement:\n").data
  ++ requirement
  ++ ("\n\nAdditional Context:\n").data
  ++ (if truthyS context then context.getD [] else ("None provided").data)
  ++ ("\n\nCodex CLI Analysis:\n").data
  ++ analysis_snippet
  ++ ("\n\nOutput format (use this structure exactly):\n\n## High-Level Approach\n[Describe the approach in business and product terms. What will this feature enable? How will users interact with it? What are the key capabilities?]\n\n## Feasibility Assessment\n[Assess feasibility: High/Medium/Low with explanation in business terms. What makes this feasible or challenging from a product perspective?]\n\n## Risks & Challenges\n[List business and product risks:\n- Risk 1: Description (focus on product impact, not technical details)\n- Risk 2: Description\n...]\n\n## Open Questions\n[List questions that need product decisions:\n- Question 1 (product/business focused)\n- Question 2\n...]\n\n## Rough Estimate\n[IMPORTANT: Before providing estimates, VALIDATE the estimates from the Codex CLI Analysis context above. Do NOT blindly use estimates from the analysis - critically evaluate them considering:\n- Agentic tools (Codex, Cursor, GitHub Copilot) will be used for development, which significantly reduces development time\n- Similar complexity requirements should have similar estimates (deterministic mapping)\n- Review the breakdown and ensure it's realistic for agentic tool-assisted development\n\nProvide rough estimates using DETERMINISTIC story point mapping:\n- Total Time (hours): [calculate first, assuming agentic tools are used - validate against codex analysis but adjust if needed]\n- Story Points: [MUST map deterministically: 1=2-3h, 2=<1day, 3=2-3days, 5=<1week, 8=<1sprint, 13=danger zone]\n- Breakdown: Development (Xh), Testing (Xh), Documentation (Xh), Review (Xh), Deployment (Xh)\n- Complexity: [Low/Medium/High]\n- Dependencies: [list dependencies in business terms]]\n\n## Task Breakdown\n[High-level tasks (only include what's needed):\n- Design: [if required - describe what design work is needed]\n- Spike/Research: [if required - describe what research or exploration is needed]\n- Proof of Concept: [if required - describe what POC is needed]\n- Implementation: [describe the implementation work]\n- Quality Assurance/Testing: [describe the QA and testing work]\nNote: Not all tasks are required. Only include tasks that are actually needed for this requirement.]\n").data

/-- `feasibility_analysis_node.py` lines 114-116: the feasibility system
prompt. -/
def feasibilitySystemPrompt : Str :=
  ("You are a product strategy advisor helping product managers understand feature feasibility. \nWrite in business-friendly language. Focus on product impact, user experience, and business considerations. \nAvoid technical jargon, code references, or file names. Be thorough, realistic, and professional.").data

/-- `feature_analysis_node.py` lines 39-87: the feature analysis prompt. -/
def featureNodePrompt (query : Str) (analysis_snippet : Str) : Str :=
  ("\nYou are a product analyst helping a product manager understand a feature in their codebase.\n\nTask:\nGiven the codebase analysis and user query, produce a business-friendly feature analysis that includes:\n1. What the feature does (from a user/product perspective)\n2. Key capabilities and functionality\n3. How it fits into the product\n4. Dependencies on other features\n\nRules:\n- Write for a product manager, NOT for engineers\n- Do NOT mention specific files, code, technical implementation details, or API endpoints\n- Focus on what the feature does, not how it's built\n- Use plain language - avoid technical jargon\n- If details are missing, call them out as assumptions or unknowns\n- Use clear headings and bullet points\n- Describe user-facing functionality and business logic\n\nUser Query:\n").data
  ++ query
  ++ ("\n\nCodex CLI Analysis:\n").data
  ++ analysis_snippet
  ++ ("\n\nOutput format (use this structure exactly):\n\n## Feature Overview\n[Describe what this feature does from a user and product perspective. What problem does it solve? What capabilities does it provide?]\n\n## Key Capabilities\n[Break down the feature's main capabilities:\n- What users can do with this feature\n- Key functionality areas\n- User interactions and workflows\n- Business logic and rules]\n\n## Product Integration\n[Explain how this feature fits into the overall product:\n- How it relates to other features\n- User journey and experience\n- Business value and impact]\n\n## Dependencies\n[List dependencies on other features or capabilities in business terms]\n\n## Considerations\n[Outline important considerations for product decisions, user experience, or business logic]\n").data

/-- `feature_analysis_node.py` lines 91-93: the feature system prompt. -/
def featureSystemPrompt : Str :=
  ("You are a product analyst helping product managers understand features in their codebase. \nWrite in business-friendly language. Focus on what features do from a user and product perspective, not technical implementation. \nAvoid technical jargon, code references, file names, or API details. Be thorough and professional.").data

/-- Bullet-list parsing shared by the risks and open-questions sections
(`feasibility_analysis_node.py` lines 138 and 142):
`[r.strip() for r in section.split("-") if r.strip() and not
r.strip().startswith("#")]`. -/
def parseBulletItems (section_text : Str) : List Str :=
  (splitOnChar '-' section_text).filterMap (fun r =>
    let r2 := pyStrip r
    if r2 ≠ [] ∧ ¬ ("#").data <+: r2 then some r2 else none)

/-- `app/langgraph/nodes/feasibility_analysis_node.py` lines 22-207
(`feasibility_analysis_node`): truncate the cached analysis, invoke the
LLM, deterministically extract the structured sections; on exception every
field of the error result is the error message except the rating, which is
`"Unknown"`. -/
def feasibility_analysis_node (llm : LLM) (state : FeasState) : FeasResult :=
  let analysis_snippet := prepareAnalysisSnippet (state.codex_analysis.getD [])
  let prompt := feasibilityNodePrompt state.requirement state.context analysis_snippet
  match llm prompt feasibilitySystemPrompt with
  | .error e =>
    let error_msg := ("Feasibility Analysis agent failed: ").data ++ e
    { high_level_design := error_msg,
      risks := [error_msg],
      open_questions := [error_msg],
      technical_feasibility := ("Unknown").data,
      rough_estimate := [(("error").data, .s error_msg)],
      task_breakdown := [(("error").data, .s error_msg)],
      messages := state.messages ++ [error_msg] }
  | .ok formatted_analysis =>
    let risks_section0 := sectionOf formatted_analysis ("## Risks & Challenges").data
    let risks_section :=
      if risks_section0 = [] then sectionOf formatted_analysis ("## Risks").data
      else risks_section0
    let risks := if risks_section ≠ [] then parseBulletItems risks_section else []
    let questions_section := sectionOf formatted_analysis ("## Open Questions").data
    let open_questions :=
      if questions_section ≠ [] then parseBulletItems questions_section else []
    let feasibility_section := sectionOf formatted_analysis ("## Feasibility Assessment").data
    let technical_feasibility := classifyFeasibilityRating feasibility_section
    let estimate_section := sectionOf formatted_analysis ("## Rough Estimate").data
    let rough_estimate : Bag :=
      if estimate_section ≠ [] then
        [(("raw_text").data, .s (pyStrip estimate_section)), (("parsed").data, .b true)]
      else []
    let high_level_section := sectionOf formatted_analysis ("## High-Level Approach").data
    let high_level_design :=
      if high_level_section ≠ [] then high_level_section else formatted_analysis
    let task_breakdown_section := sectionOf formatted_analysis ("## Task Breakdown").data
    let task_breakdown : Bag :=
      if task_breakdown_section ≠ [] then
        let lower_section := pyLower task_breakdown_section
        [(("raw_text").data, .s (pyStrip task_breakdown_section)),
         (("parsed").data, .b true)]
        ++ (if ("design").data <:+: lower_section then [(("design").data, .b true)] else [])
        ++ (if ("spike").data <:+: lower_section ∨ ("research").data <:+: lower_section then
              [(("spike").data, .b true)] else [])
        ++ (if ("poc").data <:+: lower_section ∨ ("proof of concept").data <:+: lower_section then
              [(("poc").data, .b true)] else [])
        ++ (if ("implementation").data <:+: lower_section then
              [(("implementation").data, .b true)] else [])
        ++ (if ("qa").data <:+: lower_section ∨ ("testing").data <:+: lower_section
              ∨ ("quality assurance").data <:+: lower_section then
              [(("qa").data, .b true)] else [])
      else []
    { high_level_design := high_level_design,
      risks := risks,
      open_questions := open_questions,
      technical_feasibility := technical_feasibility,
      rough_estimate := rough_estimate,
      task_breakdown := task_breakdown,
      messages := state.messages ++
        [("Feasibility analysis completed for project ").data ++ state.project_id] }

/-- `app/langgraph/nodes/feature_analysis_node.py` lines 22-115
(`feature_analysis_node`): truncate the cached analysis, invoke the LLM,
split the response at "## Key Capabilities"; on exception every field of
the error result is the error message. -/
def feature_analysis_node (llm : LLM) (state : FeatState) : FeatResult :=
  let analysis_snippet := prepareAnalysisSnippet (state.codex_analysis.getD [])
  let prompt := featureNodePrompt state.query analysis_snippet
  match llm prompt featureSystemPrompt with
  | .error e =>
    let error_msg := ("Feature Analysis agent failed: ").data ++ e
    { high_level_design := error_msg,
      feature_details := error_msg,
      messages := state.messages ++ [error_msg] }
  | .ok formatted_analysis =>
    let part0 :=
      match splitOnce ("## Key Capabilities").data formatted_analysis with
      | none => formatted_analysis
      | some (before, _) => before
    { high_level_design := pyStrip (pyReplaceAll ("## Feature Overview").data [] part0),
      feature_details := pyStrip formatted_analysis,
      messages := state.messages ++
        [("Feature analysis completed for recipe ").data ++ pyStrOfOptNat state.recipe_id] }

/-- C7 counterexample: when the LLM call fails with "boom", the feasibility
stage sets the rating field to "Unknown", not to the error message — so not
every structured field is the error message. -/
theorem analysis_error_fields_counterexample :
    ¬ ((feasibility_analysis_node (fun _ _ => .error ("boom").data)
        { project_id := ("p1").data, requirement := ("add exports").data,
          context := none, codex_analysis := none,
          messages := [] }).technical_feasibility
      = ("Feasibility Analysis agent failed: boom").data) := by
  decide

/-- C7 amended: when the LLM call inside an analysis stage raises, the
stage catches it and returns a fully populated error result: in the
Feature stage every structured field is the error message; in the
Feasibility stage every structured field carries the error message (the
estimate and task-breakdown bags under an "error" key) except the rating,
which is set to "Unknown"; in both stages a trace entry recording the
error is appended. -/
theorem analysis_error_result_spec
    (llmF llmT : LLM) (fst : FeasState) (tst : FeatState) (e e2 : Str)
    (hfe : llmF (feasibilityNodePrompt fst.requirement fst.context
        (prepareAnalysisSnippet (fst.codex_analysis.getD [])))
        feasibilitySystemPrompt = .error e)
    (hte : llmT (featureNodePrompt tst.query
        (prepareAnalysisSnippet (tst.codex_analysis.getD [])))
        featureSystemPrompt = .error e2) :
    feasibility_analysis_node llmF fst =
      { high_level_design := ("Feasibility Analysis agent failed: ").data ++ e,
        risks := [("Feasibility Analysis agent failed: ").data ++ e],
        open_questions := [("Feasibility Analysis agent failed: ").data ++ e],
        technical_feasibility := ("Unknown").data,
        rough_estimate :=
          [(("error").data, .s (("Feasibility Analysis agent failed: ").data ++ e))],
        task_breakdown :=
          [(("error").data, .s (("Feasibility Analysis agent failed: ").data ++ e))],
        messages := fst.messages ++ [("Feasibility Analysis agent failed: ").data ++ e] } ∧
    feature_analysis_node llmT tst =
      { high_level_design := ("Feature Analysis agent failed: ").data ++ e2,
        feature_details := ("Feature Analysis agent failed: ").data ++ e2,
        messages := tst.messages ++ [("Feature Analysis agent failed: ").data ++ e2] } := by
  constructor
  · simp only [feasibility_analysis_node]
    rw [hfe]
  · simp only [feature_analysis_node]
    rw [hte]

/-- C7 witness: the amended error-result shape evaluated at a concrete
failing LLM call for both stages. -/
theorem analysis_error_result_witness :
    (feasibility_analysis_node (fun _ _ => .error ("boom").data)
      { project_id := ("p1").data, requirement := ("add exports").data,
        context := none, codex_analysis := none, messages := [] }).risks
      = [("Feasibility Analysis agent failed: boom").data] ∧
    (feature_analysis_node (fun _ _ => .error ("down").data)
      { project_id := ("p1").data, recipe_id := none,
        query := ("billing").data, codex_analysis := none, messages := [] }).feature_details
      = ("Feature Analysis agent failed: down").data := by
  have h := analysis_error_result_spec
    (fun _ _ => .error ("boom").data) (fun _ _ => .error ("down").data)
    { project_id := ("p1").data, requirement := ("add exports").data,
      context := none, codex_analysis := none, messages := [] }
    { project_id := ("p1").data, recipe_id := none,
      query := ("billing").data, codex_analysis := none, messages := [] }
    ("boom").data ("down").data rfl rfl
  constructor
  · rw [h.1]
    decide
  · rw [h.2]
    decide

/-- The configuration of one `subprocess.run` invocation (the parameters
the Python call passes; `timeout := none` means no `timeout=` argument,
i.e. the process is waited on without any time bound). -/
structure SubprocessCall where
  args : List Str
  cwd : Str
  input_text : Str
  timeout : Option Nat
  check : Bool
  capture_output : Bool

/-- The completed-process value `subprocess.run` returns. -/
structure ProcResult where
  returncode : Int
  stdout : Str
  stderr : Str

/-- `codex_terminal_runner.py` lines 34-110: the analysis prompt handed to
the external `codex` process on stdin (the f-string, then `.strip()`). -/
def codexTerminalPrompt (requirement_summary : Option Str) : Str :=
  pyStrip (
    ("\nYou are a product strategist and business analyst helping a product manager understand the feasibility and effort required for a new feature or requirement.\n\nRules:\n- Read-only analysis\n- Do NOT write or modify code\n- Do NOT run destructive commands\n- Write for product managers, NOT engineers\n- Focus on business impact, user experience, and product considerations\n- Use plain language - avoid technical jargon when possible\n- Estimation MUST strictly be based on the assumption that agentic tools (Codex, Cursor, GitHub Copilot, or similar AI coding assistants) will be used during development. Do NOT estimate as if coding manually.\n- Estimation must be deterministic - similar complexities should yield similar estimates\n\nTask:\n- Identify what parts of the product/system will be affected (in business terms)\n- Highlight existing capabilities and patterns that can be leveraged\n- Call out business risks, user experience concerns, and product implications\n- Mention testing and quality assurance considerations from a product perspective\n- Provide a high-level product approach (what will users experience, what capabilities will be enabled)\n- Provide an estimation (story points + time in hours) and complexity/risk assessment\n\nRequirement/Query:\n").data
    ++ (if truthyS requirement_summary then requirement_summary.getD [] else [])
    ++ ("\n\nRespond in the following format:\n\n1. Product Impact\n   - What parts of the product/user experience will be affected?\n   - What new capabilities will be enabled?\n   - What user workflows or features will change?\n\n2. Existing Capabilities\n   - What existing features or patterns can be leveraged?\n   - What similar functionality already exists?\n\n3. Business Risks & Considerations\n   - What are the main risks from a product/business perspective?\n   - What edge cases or user scenarios need special consideration?\n   - What product decisions are needed?\n\n4. Quality Assurance Considerations\n   - What testing scenarios are important from a user/product perspective?\n   - What quality gates should be considered?\n\n5. High-Level Product Approach\n   - How will this feature work from a user's perspective?\n   - What is the recommended product strategy?\n\n6. Implementation Strategy\n   - High-level approach to building this (in business terms, not technical details)\n   - What phases or milestones make sense?\n\n7. Estimation (MUST follow deterministic story point mapping):\n   - Total Time (hours): [calculate first, assuming agentic tools are used]\n   - Story Points: [MUST map deterministically using: 1=2-3h, 2=<1day, 3=2-3days, 5=<1week, 8=<1sprint, 13=danger zone - should be broken down]\n   - Breakdown: Development (Xh), Testing (Xh), Documentation (Xh), Review (Xh), Deployment (Xh)\n   - Complexity: [Low/Medium/High]\n   - Business Risks: [list specific product/business risks]\n\n8. Task Breakdown\n   - High-level tasks (only include what's needed):\n     * Design (if required)\n     * Spike/Research (if required)\n     * Proof of Concept (if required)\n     * Implementation\n     * Quality Assurance/Testing\n   - Each task should be described in product/business terms\n\n9. Dependencies\n   - What other features, systems, or decisions are needed?\n   - What external dependencies exist?\n\n10. Acceptance Criteria\n    - What defines success from a product perspective?\n    - What user outcomes should be achieved?\n\n").data)

/-- `codex_terminal_runner.py` lines 113-133: the exact `subprocess.run`
invocation built by `run_codex_in_terminal`.  No `timeout=` argument is
passed (`timeout := none`), so the wait on the external process is
unbounded. -/
def codexSubprocessCall (repo_path output_path prompt : Str) : SubprocessCall :=
  { args := [("codex").data, ("exec").data, ("-C").data, repo_path,
             ("--sandbox").data, ("read-only").data, ("--color").data, ("never").data,
             ("--output-last-message").data, output_path, ("-").data],
    cwd := repo_path,
    input_text := prompt,
    timeout := none,
    check := false,
    capture_output := true }

/-- The external effects of `run_codex_in_terminal`: process execution
(which may raise) and the later read of the output file (`none`: the file
does not exist; `some (.error e)`: reading raised; `some (.ok s)`: its
contents). -/
structure CodexEnv where
  execRun : SubprocessCall → Except Str ProcResult
  readOutputFile : Option (Except Str Str)
  output_path : Str

/-- `app/langgraph/tools/codex_terminal_runner.py` lines 15-152
(`run_codex_in_terminal`): empty path ⇒ ""; any exception ⇒ ""; non-zero
return code ⇒ ""; otherwise the stripped output-file contents, falling
back to stripped stdout. -/
def run_codex_in_terminal (env : CodexEnv) (repo_path : Str)
    (requirement_summary : Option Str) : Str :=
  if repo_path = [] then []
  else
    let prompt := codexTerminalPrompt requirement_summary
    match env.execRun (codexSubprocessCall repo_path env.output_path prompt) with
    | .error _ => []
    | .ok result =>
      if result.returncode ≠ 0 then []
      else
        match env.readOutputFile with
        | some (.ok contents) => pyStrip contents
        | some (.error _) => pyStrip result.stdout
        | none => pyStrip result.stdout

/-- C6 counterexample: the subprocess invocation built for a concrete
repository and query carries no timeout at all (`timeout = none`), so no
hard timeout is applied — refuting the timeout half of the claim. -/
theorem codex_runner_no_timeout_counterexample :
    (codexSubprocessCall ("/repo").data ("/tmp/out").data
      (codexTerminalPrompt (some ("add exports").data))).timeout = none ∧
    ¬ ((codexSubprocessCall ("/repo").data ("/tmp/out").data
      (codexTerminalPrompt (some ("add exports").data))).timeout).isSome := by
  exact ⟨rfl, by simp [codexSubprocessCall]⟩

/-- C6 amended: the Code-Analysis invocation never raises to its caller
and returns the empty string on every failure (missing path, execution
exception, non-zero exit); however no timeout is applied — the subprocess
call is configured without any time bound, so a hung external process
blocks the caller instead of yielding empty output. -/
theorem codex_runner_error_handling_spec (env : CodexEnv) (rp : Str)
    (rq : Option Str) :
    (rp = [] → run_codex_in_terminal env rp rq = []) ∧
    (∀ e, env.execRun (codexSubprocessCall rp env.output_path
        (codexTerminalPrompt rq)) = .error e →
      run_codex_in_terminal env rp rq = []) ∧
    (∀ res, env.execRun (codexSubprocessCall rp env.output_path
        (codexTerminalPrompt rq)) = .ok res → res.returncode ≠ 0 →
      run_codex_in_terminal env rp rq = []) ∧
    (codexSubprocessCall rp env.output_path (codexTerminalPrompt rq)).timeout
      = none := by
  refine ⟨fun hrp => ?_, fun e he => ?_, fun res hres hrc => ?_, rfl⟩
  · unfold run_codex_in_terminal
    rw [if_pos hrp]
  · by_cases hrp : rp = []
    · unfold run_codex_in_terminal
      rw [if_pos hrp]
    · unfold run_codex_in_terminal
      rw [if_neg hrp]
      simp only [he]
  · by_cases hrp : rp = []
    · unfold run_codex_in_terminal
      rw [if_pos hrp]
    · unfold run_codex_in_terminal
      rw [if_neg hrp]
      simp only [hres]
      rw [if_pos hrc]

/-- C6 witness: concrete failing environments produce the empty string. -/
theorem codex_runner_error_handling_witness :
    run_codex_in_terminal
      { execRun := fun _ => .error ("spawn failed").data,
        readOutputFile := none, output_path := ("/tmp/out").data }
      ("/repo").data (some ("add exports").data) = [] ∧
    run_codex_in_terminal
      { execRun := fun _ => .ok { returncode := 1, stdout := ("junk").data,
                                  stderr := ("broken").data },
        readOutputFile := none, output_path := ("/tmp/out").data }
      ("/repo").data (some ("add exports").data) = [] ∧
    run_codex_in_terminal
      { execRun := fun _ => .error ("spawn failed").data,
        readOutputFile := none, output_path := ("/tmp/out").data }
      [] none = [] := by
  refine ⟨?_, ?_, ?_⟩
  · exact (codex_runner_error_handling_spec
      { execRun := fun _ => .error ("spawn failed").data,
        readOutputFile := none, output_path := ("/tmp/out").data }
      ("/repo").data (some ("add exports").data)).2.1 ("spawn failed").data rfl
  · exact (codex_runner_error_handling_spec
      { execRun := fun _ => .ok { returncode := 1, stdout := ("junk").data,
                                  stderr := ("broken").data },
        readOutputFile := none, output_path := ("/tmp/out").data }
      ("/repo").data (some ("add exports").data)).2.2.1
      { returncode := 1, stdout := ("junk").data, stderr := ("broken").data }
      rfl (by decide)
  · exact (codex_runner_error_handling_spec
      { execRun := fun _ => .error ("spawn failed").data,
        readOutputFile := none, output_path := ("/tmp/out").data }
      [] none).1 rfl

/-- `feature_discovery_service.py` lines 203-209: conversational starters
that disqualify the whole Codex output when the first line begins with one
of them. -/
def conversationalStarters : List Str :=
  [("i'm").data, ("i am").data, ("i see").data, ("i need").data,
   ("i want").data, ("i have").data,
   ("you've").data, ("you have").data, ("you're").data, ("you are").data,
   ("which").data, ("what").data, ("how").data, ("when").data,
   ("where").data, ("why").data,
   ("please").data, ("can you").data, ("could you").data, ("would you").data,
   ("let me").data, ("allow me").data, ("excuse me").data]

/-- `feature_discovery_service.py` lines 265-281: conversational prefixes
rejected by the name validator. -/
def conversationalNamePatterns : List Str :=
  [("please tell me").data, ("please").data, ("tell me").data,
   ("what is").data, ("what are").data,
   ("can you").data, ("could you").data, ("would you").data,
   ("how do").data, ("how does").data,
   ("i need").data, ("i want").data,
   ("show me").data, ("give me").data, ("help me").data]

/-- `feature_discovery_service.py` lines 289-298: status-message substrings
rejected by the name validator. -/
def statusMessagePatterns : List Str :=
  [("no user-facing features").data, ("no features detected").data,
   ("no features found").data, ("no feature").data,
   ("features not found").data, ("no capabilities").data,
   ("unable to find").data, ("cannot find").data]

/-- `feature_discovery_service.py` lines 311-336: instruction-like
substrings rejected by the name validator. -/
def instructionPatterns : List Str :=
  [("numbered list").data, ("output format").data, ("provide a").data,
   ("only output").data, ("nothing else").data, ("example output").data,
   ("feature name").data, ("product analysis sections").data,
   ("product analysis format").data, ("section product analysis").data,
   ("section format").data, ("full product").data, ("sections (").data,
   ("format:").data, ("output:").data, ("rules:").data, ("task:").data,
   ("important:").data, ("do not").data, ("avoid listing").data,
   ("focus on").data, ("group related").data, ("use clear").data,
   ("list features").data]

/-- `feature_discovery_service.py` line 352: keywords that make a
colon-containing name instruction-like. -/
def colonKeywords : List Str :=
  [("format").data, ("output").data, ("example").data, ("rule").data,
   ("task").data, ("please").data, ("tell").data]

/-- `feature_discovery_service.py` line 359: interrogative words that make
a short colon-terminated name prompt-like. -/
def colonShortWords : List Str :=
  [("please").data, ("tell").data, ("what").data, ("how").data,
   ("can").data, ("could").data]

/-- `feature_discovery_service.py` line 363: template-placeholder
prefixes. -/
def templateStarters : List Str :=
  [("1.").data, ("2.").data, ("3.").data, ("feature name").data,
   ("example").data]

/-- `feature_discovery_service.py` line 372: question-word starters. -/
def questionStarters : List Str :=
  [("what").data, ("where").data, ("when").data, ("why").data,
   ("who").data, ("how").data, ("which").data, ("whose").data]

/-- Python `pat in s`: substring containment, as a Bool. -/
def containsSub (pat s : Str) : Bool := decide (pat <:+: s)

/-- `feature_discovery_service.py` lines 249-376
(`_is_valid_feature_name`): the capability-name rejection heuristic. -/
def isValidFeatureName (name : Str) : Bool :=
  if name.isEmpty || name.length < 3 then false
  else
    let name_lower := pyStrip (pyLower name)
    let name_stripped := pyStrip name
    if conversationalNamePatterns.any (fun p => p.isPrefixOf name_lower) then false
    else if statusMessagePatterns.any (fun p => containsSub p name_lower) then false
    else if (([(Char.ofNat 34)]).isPrefixOf name_stripped
              && ([(Char.ofNat 34)]).isSuffixOf name_stripped)
          || (([(Char.ofNat 39)]).isPrefixOf name_stripped
              && ([(Char.ofNat 39)]).isSuffixOf name_stripped) then false
    else if instructionPatterns.any (fun p => containsSub p name_lower) then false
    else if (containsSub ("section").data name_lower
              || containsSub ("analysis").data name_lower)
          && containsSub ("format").data name_lower then false
    else if ([('?' : Char)]).isSuffixOf name_stripped then false
    else if name.contains ':'
          && colonKeywords.any (fun kw => containsSub kw name_lower) then false
    else if ([(':' : Char)]).isSuffixOf name_stripped && name_stripped.length < 30
          && (name_stripped.length < 15
              || colonShortWords.any (fun w => containsSub w name_lower)) then false
    else if templateStarters.any (fun p => p.isPrefixOf name_lower) then false
    else if !(name.any Char.isAlpha) then false
    else if questionStarters.any (fun q => (q ++ [' ']).isPrefixOf name_lower) then false
    else true

/-- The regex `^\d+\.\s*(.+)$` — or, with `requireWs`, `^\d+\.\s+.+` —
applied to an already-stripped line: one or more digits, a dot,
optional/required whitespace, then a non-empty remainder (the captured
group, with leading whitespace consumed greedily). -/
def matchNumbered (requireWs : Bool) (line : Str) : Option Str :=
  let ds := line.takeWhile Char.isDigit
  let rest := line.dropWhile Char.isDigit
  if ds = [] then none
  else
    match rest with
    | '.' :: r =>
      let ws := r.takeWhile Char.isWhitespace
      let body := r.dropWhile Char.isWhitespace
      if requireWs ∧ ws = [] then none
      else if body = [] then none
      else some body
    | _ => none

/-- `feature_discovery_service.py` line 222: does a line (after strip)
match `^\d+\.\s+.+`? -/
def matchesNumberedStrict (line : Str) : Bool :=
  (matchNumbered true (pyStrip line)).isSome

/-- `feature_discovery_service.py` lines 218-224: the suffix of the line
list starting at the first strictly numbered line, if any. -/
def dropToFirstNumbered : List Str → Option (List Str)
  | [] => none
  | l :: ls =>
    if matchesNumberedStrict l then some (l :: ls) else dropToFirstNumbered ls

/-- `feature_discovery_service.py` lines 232-244: the parsing loop over the
lines from the first numbered item onward: collect valid numbered names,
skip empty or invalid lines, and stop at the first non-empty non-numbered
line once at least one name has been collected. -/
def parseNumberedLines : List Str → List Str → List Str
  | acc, [] => acc
  | acc, l :: ls =>
    let line := pyStrip l
    match matchNumbered false line with
    | some body =>
      let feature_name := pyStrip body
      if feature_name ≠ [] ∧ isValidFeatureName feature_name then
        parseNumberedLines (acc ++ [feature_name]) ls
      else
        parseNumberedLines acc ls
    | none =>
      if line ≠ [] ∧ acc ≠ [] then acc
      else parseNumberedLines acc ls

/-- `feature_discovery_service.py` lines 194-247 (`_discover_feature_list`,
as a function of the raw Codex output): empty output or a conversational
first line yields no capabilities; otherwise parse from the first numbered
line on and cap the result at 50 entries. -/
def discoverFeatureListFromOutput (codex_output : Str) : List Str :=
  if codex_output = [] then []
  else
    let first_line_lower :=
      pyLower (pyStrip ((splitOnChar '\n' codex_output).headD []))
    if conversationalStarters.any (fun st => st.isPrefixOf first_line_lower) then []
    else
      match dropToFirstNumbered (splitOnChar '\n' codex_output) with
      | none => []
      | some rest => (parseNumberedLines [] rest).take 50

theorem dropToFirstNumbered_eq_none (ls : List Str)
    (h : ∀ l ∈ ls, matchesNumberedStrict l = false) :
    dropToFirstNumbered ls = none := by
  induction ls with
  | nil => rfl
  | cons l ls ih =>
    unfold dropToFirstNumbered
    rw [if_neg (by simp [h l (by simp)])]
    exact ih (fun x hx => h x (by simp [hx]))

/-- C9: the capability-list parser yields exactly ["Billing", "Search"] on
the spec's example (the non-numbered line "Thanks!" halts parsing); any
output with no strictly numbered line yields the empty list; any output
whose first line begins with a conversational opener yields the empty
list; and once at least one item has been collected, a non-empty
non-numbered line stops the loop, discarding all later lines. -/
theorem discovery_list_parsing_spec :
    discoverFeatureListFromOutput ("I can help!\n1. Billing\n2. Search\nThanks!").data
      = [("Billing").data, ("Search").data] ∧
    (∀ out : Str,
      (∀ l ∈ splitOnChar '\n' out, matchesNumberedStrict l = false) →
      discoverFeatureListFromOutput out = []) ∧
    (∀ out : Str,
      (∃ st ∈ conversationalStarters,
        st.isPrefixOf (pyLower (pyStrip ((splitOnChar '\n' out).headD []))) = true) →
      discoverFeatureListFromOutput out = []) ∧
    (∀ (acc : List Str) (l : Str) (ls : List Str),
      acc ≠ [] → pyStrip l ≠ [] → matchNumbered false (pyStrip l) = none →
      parseNumberedLines acc (l :: ls) = acc) := by
  refine ⟨by decide, fun out hall => ?_, fun out hconv => ?_,
    fun acc l ls hacc hl hm => ?_⟩
  · unfold discoverFeatureListFromOutput
    by_cases h0 : out = []
    · rw [if_pos h0]
    · rw [if_neg h0]
      rw [dropToFirstNumbered_eq_none (splitOnChar '\n' out) hall]
      by_cases hc : conversationalStarters.any
        (fun st => st.isPrefixOf (pyLower (pyStrip ((splitOnChar '\n' out).headD [])))) = true
      · rw [if_pos hc]
      · rw [if_neg hc]
  · unfold discoverFeatureListFromOutput
    by_cases h0 : out = []
    · rw [if_pos h0]
    · rw [if_neg h0]
      obtain ⟨st, hmem, hpr⟩ := hconv
      rw [if_pos (List.any_eq_true.mpr ⟨st, hmem, hpr⟩)]
  · simp only [parseNumberedLines, hm]
    rw [if_pos ⟨hl, hacc⟩]

/-- C9 witness: the general clauses of the parsing theorem instantiated on
concrete outputs: prose with no numbered line, a conversational first line
followed by a numbered list, and the loop stopping at "Thanks!". -/
theorem discovery_list_parsing_witness :
    discoverFeatureListFromOutput ("no numbered lines here\njust prose").data = [] ∧
    discoverFeatureListFromOutput ("Which output do you want?\n1. Billing").data = [] ∧
    parseNumberedLines [("Billing").data] [("Thanks!").data, ("1. Extra").data]
      = [("Billing").data] := by
  refine ⟨?_, ?_, ?_⟩
  · exact discovery_list_parsing_spec.2.1 ("no numbered lines here\njust prose").data
      (by decide)
  · exact discovery_list_parsing_spec.2.2.1 ("Which output do you want?\n1. Billing").data
      ⟨("which").data, by decide, by decide⟩
  · exact discovery_list_parsing_spec.2.2.2 [("Billing").data]
      ("Thanks!").data [("1. Extra").data] (by decide) (by decide) (by decide)

/-- A persisted row in this project's scope: the `Chat` created for a
discovered feature, or the `ProjectFeature` itself. -/
inductive Row
  | chat (analysis_type : Str) (analysis_context : Str)
  | feature (name : Str)
deriving DecidableEq, Repr

/-- A unit of work buffered in the session's open transaction
(`db.add` / `db.delete`). -/
inductive DbOp
  | add (r : Row)
  | del (r : Row)
deriving DecidableEq, Repr

/-- The persistence state seen by one discovery invocation: the committed
rows of this project plus the session's pending (uncommitted) operations.
`db.flush` sends pending inserts to the open transaction without
committing, so they still disappear on rollback; `db.commit` applies all
pending operations atomically; `db.rollback` discards them. -/
structure DbState where
  committed : List Row
  pending : List DbOp
deriving DecidableEq, Repr

/-- `db.add(row)`. -/
def dbAdd (db : DbState) (r : Row) : DbState :=
  { db with pending := db.pending ++ [DbOp.add r] }

/-- `db.delete(row)`. -/
def dbDelete (db : DbState) (r : Row) : DbState :=
  { db with pending := db.pending ++ [DbOp.del r] }

/-- Applying one buffered operation to the committed rows. -/
def applyOp (rows : List Row) : DbOp → List Row
  | DbOp.add r => rows ++ [r]
  | DbOp.del r => rows.erase r

/-- `db.commit()` when it succeeds: apply every pending operation in order,
atomically. -/
def dbCommitApply (db : DbState) : DbState :=
  { committed := db.pending.foldl applyOp db.committed, pending := [] }

/-- `db.rollback()`: discard the open transaction. -/
def dbRollback (db : DbState) : DbState := { db with pending := [] }

/-- The feature names currently committed for the project (the
`db.query(ProjectFeature).filter(...)` at lines 51-53). -/
def featureRows (rows : List Row) : List Str :=
  rows.filterMap (fun r => match r with | Row.feature n => some n | _ => none)

/-- The collaborators of one discovery invocation: the raw Codex output of
the capability listing, the per-capability analysis (`.error` models an
exception anywhere inside one iteration's analysis, which the loop catches
and skips; `db.flush` itself is modelled as non-failing), and the outcome
of the k-th `db.commit()` of the invocation (`false` = the commit
raises). -/
structure DiscoveryDeps where
  codexListOutput : Str
  analyze : Str → Except Str (Str × Str)
  commitOk : Nat → Bool

/-- Whether the per-capability analysis of `n` succeeds. -/
def analyzeOk (deps : DiscoveryDeps) (n : Str) : Bool :=
  match deps.analyze n with
  | .ok _ => true
  | .error _ => false

/-- `feature_discovery_service.py` lines 75-112: the per-capability loop:
on analysis failure log and skip; on success `db.add` the new `Chat`
(analysis_type "project_feature", context = the stage's detail text),
`db.flush()`, `db.add` the new `ProjectFeature`, and record the name. -/
def discoveryLoop (deps : DiscoveryDeps) :
    List Str → DbState → List Str → DbState × List Str
  | [], db, acc => (db, acc)
  | name :: rest, db, acc =>
    match deps.analyze name with
    | .error _ => discoveryLoop deps rest db acc
    | .ok res =>
      let db1 := dbAdd db (Row.chat ("project_feature").data res.2)
      let db2 := dbAdd db1 (Row.feature name)
      discoveryLoop deps rest db2 (acc ++ [name])

/-- The rows the loop stages for commit, in insertion order. -/
def loopRows (deps : DiscoveryDeps) : List Str → List Row
  | [] => []
  | name :: rest =>
    match deps.analyze name with
    | .error _ => loopRows deps rest
    | .ok res =>
      Row.chat ("project_feature").data res.2 :: Row.feature name
        :: loopRows deps rest

/-- The capability names whose analysis succeeds, in order. -/
def producedNames (deps : DiscoveryDeps) : List Str :=
  (discoverFeatureListFromOutput deps.codexListOutput).filter (analyzeOk deps)

/-- The outcome of one discovery invocation: the returned feature names or
the propagated error, together with the final persistence state. -/
inductive DiscoveryResult
  | ok (features : List Str) (db : DbState)
  | error (msg : Str) (db : DbState)
deriving DecidableEq, Repr

/-- `feature_discovery_service.py` lines 66-121: list capabilities, run the
loop, then `db.commit()`; the outer handler (lines 123-126) rolls back and
re-raises on any fatal error.  `commitIdx` counts the commits already
performed in this invocation. -/
def discoveryMain (deps : DiscoveryDeps) (db : DbState) (commitIdx : Nat) :
    DiscoveryResult :=
  let feature_list := discoverFeatureListFromOutput deps.codexListOutput
  if feature_list = [] then .ok [] db
  else
    let r := discoveryLoop deps feature_list db []
    if deps.commitOk commitIdx then .ok r.2 (dbCommitApply r.1)
    else .error ("commit failed").data (dbRollback r.1)

/-- `feature_discovery_service.py` lines 30-126
(`discover_features_from_codebase`): without force, existing features make
the pipeline a no-op; with force, existing features are deleted and that
deletion committed before discovery restarts; then the main flow runs. -/
def discover_features_from_codebase (deps : DiscoveryDeps) (force : Bool)
    (db0 : DbState) : DiscoveryResult :=
  let existing := featureRows db0.committed
  if existing ≠ [] ∧ force = false then
    .ok existing db0
  else if force = true ∧ existing ≠ [] then
    let dbd := existing.foldl (fun d n => dbDelete d (Row.feature n)) db0
    if deps.commitOk 0 then
      discoveryMain deps (dbCommitApply dbd) 1
    else
      .error ("commit failed").data (dbRollback dbd)
  else
    discoveryMain deps db0 0

theorem discoveryLoop_spec (deps : DiscoveryDeps) (names : List Str) :
    ∀ (db : DbState) (acc : List Str),
      discoveryLoop deps names db acc =
        ({ committed := db.committed,
           pending := db.pending ++ (loopRows deps names).map DbOp.add },
         acc ++ names.filter (analyzeOk deps)) := by
  induction names with
  | nil =>
    intro db acc
    simp [discoveryLoop, loopRows]
  | cons name rest ih =>
    intro db acc
    rcases han : deps.analyze name with e | res
    · simp only [discoveryLoop, han, ih, loopRows]
      rw [List.filter_cons_of_neg (by simp [analyzeOk, han])]
    · simp only [discoveryLoop, han, ih, loopRows, dbAdd]
      rw [List.filter_cons_of_pos (by simp [analyzeOk, han])]
      simp

theorem foldl_applyOp_map_add (rs : List Row) :
    ∀ rows : List Row, (rs.map DbOp.add).foldl applyOp rows = rows ++ rs := by
  induction rs with
  | nil => intro rows; simp
  | cons r rest ih =>
    intro rows
    simp only [List.map_cons, List.foldl_cons, applyOp, ih]
    simp

theorem foldl_applyOp_map_del_subset (ns : List Str) :
    ∀ rows : List Row,
      ∀ r ∈ (ns.map (fun n => DbOp.del (Row.feature n))).foldl applyOp rows,
        r ∈ rows := by
  induction ns with
  | nil => intro rows r hr; simpa using hr
  | cons n rest ih =>
    intro rows r hr
    simp only [List.map_cons, List.foldl_cons, applyOp] at hr
    exact List.mem_of_mem_erase (ih (rows.erase (Row.feature n)) r hr)

theorem foldl_dbDelete_spec (ns : List Str) :
    ∀ db : DbState,
      ns.foldl (fun d n => dbDelete d (Row.feature n)) db =
        { committed := db.committed,
          pending := db.pending ++ ns.map (fun n => DbOp.del (Row.feature n)) } := by
  induction ns with
  | nil => intro db; simp
  | cons n rest ih =>
    intro db
    rw [List.foldl_cons, ih]
    simp [dbDelete]

theorem mem_loopRows_of_filter (deps : DiscoveryDeps) (names : List Str) :
    ∀ n ∈ names.filter (analyzeOk deps), Row.feature n ∈ loopRows deps names := by
  induction names with
  | nil => intro n hn; simp at hn
  | cons name rest ih =>
    intro n hn
    rcases han : deps.analyze name with e | res
    · rw [List.filter_cons_of_neg (by simp [analyzeOk, han])] at hn
      simp only [loopRows, han]
      exact ih n hn
    · rw [List.filter_cons_of_pos (by simp [analyzeOk, han])] at hn
      simp only [loopRows, han]
      rcases List.mem_cons.mp hn with rfl | hn2
      · simp
      · simp [ih n hn2]

/-- C5: discovery persistence is all-or-nothing per invocation: without
force and with existing features the pipeline is a no-op; when the final
commit raises, the whole batch is rolled back — the resulting store has no
pending rows and contains no row that was not already committed before the
invocation (also on the force path, where the prior features were deleted
and that deletion committed before discovery began) — and the error is
propagated; when the commit succeeds, the committed store gains exactly
the rows staged by the loop, in particular every successfully produced
DiscoveredFeature + Conversation pair, in one commit. -/
theorem discovery_commit_atomicity (deps : DiscoveryDeps) (force : Bool)
    (db0 : DbState) (hclean : db0.pending = []) :
    (featureRows db0.committed ≠ [] → force = false →
      discover_features_from_codebase deps force db0
        = .ok (featureRows db0.committed) db0) ∧
    (featureRows db0.committed = [] →
      discoverFeatureListFromOutput deps.codexListOutput ≠ [] →
      deps.commitOk 0 = false →
      discover_features_from_codebase deps force db0
        = .error ("commit failed").data { committed := db0.committed, pending := [] }) ∧
    (force = true → featureRows db0.committed ≠ [] →
      deps.commitOk 0 = true → deps.commitOk 1 = false →
      discoverFeatureListFromOutput deps.codexListOutput ≠ [] →
      ∃ dbF, discover_features_from_codebase deps force db0
          = .error ("commit failed").data dbF ∧
        dbF.pending = [] ∧ ∀ r ∈ dbF.committed, r ∈ db0.committed) ∧
    (featureRows db0.committed = [] → deps.commitOk 0 = true →
      ∃ dbF, discover_features_from_codebase deps force db0
          = .ok (producedNames deps) dbF ∧
        dbF.pending = [] ∧
        dbF.committed = db0.committed
          ++ loopRows deps (discoverFeatureListFromOutput deps.codexListOutput) ∧
        ∀ n ∈ producedNames deps, Row.feature n ∈ dbF.committed) := by
  refine ⟨fun hex hforce => ?_, fun hex hfl hc0 => ?_,
    fun hforce hex hc0 hc1 hfl => ?_, fun hex hc0 => ?_⟩
  · simp only [discover_features_from_codebase]
    rw [if_pos ⟨hex, hforce⟩]
  · simp only [discover_features_from_codebase]
    rw [if_neg (by simp [hex]), if_neg (by simp [hex])]
    simp only [discoveryMain]
    rw [if_neg hfl, discoveryLoop_spec, if_neg (by simp [hc0])]
    simp [dbRollback]
  · simp only [discover_features_from_codebase]
    rw [if_neg (by simp [hforce]), if_pos ⟨hforce, hex⟩,
      foldl_dbDelete_spec, if_pos hc0]
    simp only [dbCommitApply, hclean, List.nil_append]
    simp only [discoveryMain]
    rw [if_neg hfl, discoveryLoop_spec, if_neg (by simp [hc1])]
    refine ⟨_, rfl, rfl, ?_⟩
    intro r hr
    exact foldl_applyOp_map_del_subset _ _ r hr
  · simp only [discover_features_from_codebase]
    rw [if_neg (by simp [hex]), if_neg (by simp [hex])]
    simp only [discoveryMain]
    by_cases hfl : discoverFeatureListFromOutput deps.codexListOutput = []
    · rw [if_pos hfl]
      refine ⟨db0, ?_, hclean, ?_, ?_⟩
      · rw [producedNames, hfl]
        simp
      · rw [hfl]
        simp [loopRows]
      · intro n hn
        rw [producedNames, hfl] at hn
        simp at hn
    · rw [if_neg hfl, discoveryLoop_spec, if_pos hc0]
      simp only [dbCommitApply, hclean, List.nil_append, foldl_applyOp_map_add]
      refine ⟨{ committed := db0.committed ++ loopRows deps (discoverFeatureListFromOutput deps.codexListOutput), pending := [] }, ?_, rfl, rfl, ?_⟩
      · rw [producedNames]
      · intro n hn
        rw [producedNames] at hn
        exact List.mem_append_right _ (mem_loopRows_of_filter deps _ n hn)

/-- C5 witness: a concrete two-capability discovery run against an empty
store: with a failing commit the result is the propagated error and the
store stays empty; with a succeeding commit all pairs are persisted. -/
theorem discovery_commit_atomicity_witness :
    discover_features_from_codebase
      { codexListOutput := ("1. Billing\n2. Search").data,
        analyze := fun _ => .ok (("d").data, ("details").data),
        commitOk := fun _ => false } false { committed := [], pending := [] }
      = .error ("commit failed").data { committed := [], pending := [] } ∧
    (∃ dbF, discover_features_from_codebase
        { codexListOutput := ("1. Billing\n2. Search").data,
          analyze := fun _ => .ok (("d").data, ("details").data),
          commitOk := fun _ => true } false { committed := [], pending := [] }
        = .ok (producedNames
            { codexListOutput := ("1. Billing\n2. Search").data,
              analyze := fun _ => .ok (("d").data, ("details").data),
              commitOk := fun _ => true }) dbF ∧
      dbF.pending = [] ∧
      dbF.committed = [] ++ loopRows
          { codexListOutput := ("1. Billing\n2. Search").data,
            analyze := fun _ => .ok (("d").data, ("details").data),
            commitOk := fun _ => true }
          (discoverFeatureListFromOutput ("1. Billing\n2. Search").data) ∧
      ∀ n ∈ producedNames
          { codexListOutput := ("1. Billing\n2. Search").data,
            analyze := fun _ => .ok (("d").data, ("details").data),
            commitOk := fun _ => true },
        Row.feature n ∈ dbF.committed) := by
  constructor
  · exact (discovery_commit_atomicity
      { codexListOutput := ("1. Billing\n2. Search").data,
        analyze := fun _ => .ok (("d").data, ("details").data),
        commitOk := fun _ => false } false { committed := [], pending := [] }
      rfl).2.1 rfl (by decide) rfl
  · exact (discovery_commit_atomicity
      { codexListOutput := ("1. Billing\n2. Search").data,
        analyze := fun _ => .ok (("d").data, ("details").data),
        commitOk := fun _ => true } false { committed := [], pending := [] }
      rfl).2.2.2 rfl rfl
